import Mathlib

/-!
Verification of the ZTE NG router Home Assistant integration
(`custom_components/ha-zte-ng-router/zte_api.py` and
`custom_components/zte_ng_router/sensor.py`).

The Python client is shallowly embedded: JSON values become the inductive
type `J` (Python `None` is `J.null`, so a missing dictionary key and an
explicit `None` value coincide, exactly as `dict.get` makes them coincide
in Python); Python numbers become `ℚ` (every numeric literal handled by the
claims is exactly representable, and the only arithmetic performed is
addition of such values, which binary floating point computes exactly);
exceptions become `Except PErr`; the HTTP transport becomes an oracle list
of `Outcome`s consumed in order, and the requests the client emits are
recorded in an event list `Ev` so that statements about "how many logins
happened" are statements about the run's event log.
-/

namespace ZteApi

/-- JSON / Python values as the router API sees them.  `null` doubles as
Python `None`.  Booleans do not occur in any payload the code inspects, so
they are omitted. -/
inductive J where
  | null : J
  | num (q : ℚ) : J
  | str (s : String) : J
  | obj (kvs : List (String × J)) : J
  | arr (xs : List J) : J
deriving Repr

/-- Python truthiness of a value (`if value:`). -/
def jTruthy : J → Bool
  | .null => false
  | .num q => q ≠ 0
  | .str s => s ≠ ""
  | .obj kvs => !kvs.isEmpty
  | .arr xs => !xs.isEmpty

/-- Python `value == n` for a numeric literal `n` (only ever compared
against numbers by the code: `result[0] == 0`, `code == -32002`). -/
def jIsNum (v : J) (n : ℚ) : Bool :=
  match v with
  | .num q => q = n
  | _ => false

/-- Python `d.get(k)` on a dictionary: the stored value, or `None` when the
key is missing (first binding wins, mirroring the uniqueness of dict keys). -/
def dictGet (kvs : List (String × J)) (k : String) : J :=
  match kvs.find? (fun p => p.1 == k) with
  | some p => p.2
  | none => J.null

/-- Characters Python's `str.strip()` removes (the whitespace occurring in
router payloads). -/
def isWs (c : Char) : Bool :=
  c == ' ' || c == '\t' || c == '\n' || c == '\r'

/-- Model of `str.strip()` on a character list. -/
def trimWs (l : List Char) : List Char :=
  ((l.dropWhile isWs).reverse.dropWhile isWs).reverse

/-- ASCII decimal digit test. -/
def isDigit (c : Char) : Bool :=
  48 ≤ c.toNat && c.toNat ≤ 57

/-- Value of a nonempty all-digit character list; `none` otherwise. -/
def digitsVal (cs : List Char) : Option Nat :=
  if cs.isEmpty then none
  else if cs.all isDigit then
    some (cs.foldl (fun a c => 10 * a + (c.toNat - 48)) 0)
  else none

/-- Value of a possibly empty all-digit list (used for the two sides of a
decimal point, where Python allows either side to be empty). -/
def digitsValD (cs : List Char) : Nat :=
  cs.foldl (fun a c => 10 * a + (c.toNat - 48)) 0

/-- Python `int(s)` on a string: optional surrounding whitespace, optional
sign, then a nonempty run of digits; anything else raises `ValueError`,
modelled as `none`.  (Exotic accepted forms — underscore separators —
do not occur in router payloads and are outside the model.) -/
def pyIntStr (s : String) : Option Int :=
  match trimWs s.data with
  | '+' :: rest => (digitsVal rest).map Int.ofNat
  | '-' :: rest => (digitsVal rest).map (fun n => -(n : Int))
  | t => (digitsVal t).map Int.ofNat

/-- Split a character list at the first dot, keeping everything after it
(`none` when no dot occurs). -/
def splitDot : List Char → Option (List Char × List Char)
  | [] => none
  | c :: rest =>
    if c == '.' then some ([], rest)
    else (splitDot rest).map (fun p => (c :: p.1, p.2))

/-- Python `float(s)` on a string: optional whitespace and sign, then
digits with at most one decimal point and at least one digit overall;
anything else raises `ValueError`, modelled as `none`.  (Exponent forms,
`inf`/`nan` and underscore separators do not occur in router payloads and
are outside the model.) -/
def pyFloatStr (s : String) : Option ℚ :=
  let t := trimWs s.data
  let signed : ℚ × List Char :=
    match t with
    | '+' :: r => (1, r)
    | '-' :: r => (-1, r)
    | _ => (1, t)
  let sign := signed.1
  let u := signed.2
  match splitDot u with
  | none => (digitsVal u).map (fun n => sign * n)
  | some (a, b) =>
    if a == [] && b == [] then none
    else if (a ++ b).all isDigit then
      if (splitDot b).isSome then none
      else some (sign * ((digitsValD a : ℚ) + (digitsValD b : ℚ) / 10 ^ b.length))
    else none

/-- Truncation toward zero, as Python `int(float)` performs. -/
def ratTrunc (q : ℚ) : Int :=
  if 0 ≤ q then ⌊q⌋ else -⌊-q⌋

/-- Python `int(v)` under a `try/except (TypeError, ValueError)` guard:
numbers truncate toward zero, strings parse as integer literals, every
other value (including `None`) yields `none` (the caught exception). -/
def pyIntJ (v : J) : Option Int :=
  match v with
  | .num q => some (ratTrunc q)
  | .str s => pyIntStr s
  | _ => none

/-- Python `float(v)` under a `try/except (TypeError, ValueError)` guard. -/
def pyFloatJ (v : J) : Option ℚ :=
  match v with
  | .num q => some q
  | .str s => pyFloatStr s
  | _ => none

/-- One row of a band table: band number, inclusive lower and upper channel
bound. -/
abbrev BandRow := Nat × Int × Int

/-- The LTE EARFCN table of `_convert_lte_earfcn_to_band` (zte_api.py
lines 62-76), in source order. -/
def lte_bands : List BandRow :=
  [ (1, 0, 599),
    (3, 1200, 1949),
    (4, 1950, 2399),
    (5, 2400, 2649),
    (7, 2750, 3449),
    (8, 3450, 3799),
    (20, 6150, 6449),
    (28, 9210, 9659),
    (32, 9920, 10359),
    (38, 37750, 38249),
    (40, 38650, 39649),
    (42, 41590, 43589),
    (43, 43590, 45589) ]

/-- The NR ARFCN table of `_convert_nr_arfcn_to_band` (zte_api.py
lines 89-101), in source order. -/
def nr_bands : List BandRow :=
  [ (1, 422000, 434000),
    (3, 361000, 376000),
    (5, 173800, 178800),
    (7, 524000, 538000),
    (8, 185000, 192000),
    (28, 151600, 160600),
    (40, 460000, 480000),
    (41, 499200, 537999),
    (75, 286400, 303400),
    (78, 620000, 653333),
    (79, 693334, 733333) ]

/-- Does a table row's inclusive range contain the channel? -/
def rowHas (ch : Int) (r : BandRow) : Bool :=
  r.2.1 ≤ ch && ch ≤ r.2.2

/-- The `for band, nmin, nmax in ...: if nmin <= x <= nmax: return band`
loop shared by both converters: first matching row wins. -/
def lookupBand : List BandRow → Int → Option Nat
  | [], _ => none
  | r :: rest, ch => if rowHas ch r then some r.1 else lookupBand rest ch

/-- Embedding of `_convert_lte_earfcn_to_band` (zte_api.py lines 56-81). -/
def convert_lte_earfcn_to_band (earfcn : Option Int) : Option Nat :=
  match earfcn with
  | none => none
  | some e => lookupBand lte_bands e

/-- Embedding of `_convert_nr_arfcn_to_band` (zte_api.py lines 83-107). -/
def convert_nr_arfcn_to_band (arfcn : Option Int) : Option Nat :=
  match arfcn with
  | none => none
  | some a => lookupBand nr_bands a

/-- Embedding of `_compute_bands_and_bw` (zte_api.py lines 109-148): derive the band
summary string and total bandwidth from a network-info dictionary.  The
`try: int(...)` / `try: float(...)` blocks become `pyIntJ` / `pyFloatJ`. -/
def compute_bands_and_bw (netinfo : List (String × J)) : String × ℚ :=
  let lte_earfcn := pyIntJ (dictGet netinfo "lte_action_channel")
  let lte_bw := pyFloatJ (dictGet netinfo "lte_bandwidth")
  let after_lte : List String × ℚ :=
    match lte_earfcn, lte_bw with
    | some e, some bw =>
      if 0 < bw then
        match convert_lte_earfcn_to_band (some e) with
        | some b => (["B" ++ toString b], bw)
        | none => ([], bw)
      else ([], 0)
    | _, _ => ([], 0)
  let nr_arfcn := pyIntJ (dictGet netinfo "nr5g_action_channel")
  let nr_bw := pyFloatJ (dictGet netinfo "nr5g_bandwidth")
  let after_nr : List String × ℚ :=
    match nr_arfcn, nr_bw with
    | some a, some bw =>
      if 0 < bw then
        match convert_nr_arfcn_to_band (some a) with
        | some b => (after_lte.1 ++ ["N" ++ toString b], after_lte.2 + bw)
        | none => (after_lte.1, after_lte.2 + bw)
      else after_lte
    | _, _ => after_lte
  let bands := after_nr.1
  (if bands.isEmpty then "-" else String.intercalate " + " bands, after_nr.2)

/-- Modelled from the spec: the band-summary derivation of §4.1, stated the
way the (amended) text reads — each technology independently contributes a
bandwidth amount when its channel coerces to a valid number and its
bandwidth to a positive number, and contributes its label when additionally
the resolver finds a band; the two contributions combine, labels join with
" + " and an empty list renders as "-".  Compared against
`compute_bands_and_bw` below. -/
def summarizeSpec (netinfo : List (String × J)) : String × ℚ :=
  let lch := pyIntJ (dictGet netinfo "lte_action_channel")
  let lbw := pyFloatJ (dictGet netinfo "lte_bandwidth")
  let nch := pyIntJ (dictGet netinfo "nr5g_action_channel")
  let nbw := pyFloatJ (dictGet netinfo "nr5g_bandwidth")
  let ltePart : List String × ℚ :=
    match lch, lbw with
    | some e, some bw =>
      if 0 < bw then
        ((convert_lte_earfcn_to_band (some e)).toList.map (fun b => "B" ++ toString b), bw)
      else ([], 0)
    | _, _ => ([], 0)
  let nrPart : List String × ℚ :=
    match nch, nbw with
    | some a, some bw =>
      if 0 < bw then
        ((convert_nr_arfcn_to_band (some a)).toList.map (fun b => "N" ++ toString b), bw)
      else ([], 0)
    | _, _ => ([], 0)
  let labels := ltePart.1 ++ nrPart.1
  let total := ltePart.2 + nrPart.2
  (if labels.isEmpty then "-" else String.intercalate " + " labels, total)

end ZteApi

namespace Sha256

/-!
Executable SHA-256 over byte lists (bytes and 32-bit words as `Nat` with
explicit reduction modulo `2 ^ 32`), embedding what `hashlib.sha256` does
for the login-hash computation of zte_api.py.
-/

/-- The word modulus, `2 ^ 32`. -/
def w32 : Nat := 4294967296

/-- Right rotation of a 32-bit word by `k` positions. -/
def rot32 (k n : Nat) : Nat := ((n >>> k) ||| (n <<< (32 - k))) % w32

/-- The upper-case sigma function Σ₀ of the compression rounds. -/
def sumA (x : Nat) : Nat := (rot32 2 x) ^^^ (rot32 13 x) ^^^ (rot32 22 x)

/-- The upper-case sigma function Σ₁ of the compression rounds. -/
def sumE (x : Nat) : Nat := (rot32 6 x) ^^^ (rot32 11 x) ^^^ (rot32 25 x)

/-- The lower-case sigma function σ₀ of the message schedule. -/
def sigA (x : Nat) : Nat := (rot32 7 x) ^^^ (rot32 18 x) ^^^ (x >>> 3)

/-- The lower-case sigma function σ₁ of the message schedule. -/
def sigE (x : Nat) : Nat := (rot32 17 x) ^^^ (rot32 19 x) ^^^ (x >>> 10)

/-- The choice function (the complement of `x` taken by xor against the
all-ones word). -/
def chf (x y z : Nat) : Nat := (x &&& y) ^^^ ((x ^^^ (w32 - 1)) &&& z)

/-- The majority function. -/
def majf (x y z : Nat) : Nat := (x &&& y) ^^^ (x &&& z) ^^^ (y &&& z)

/-- The 64 round constants of SHA-256 (the fractional parts of the cube
roots of the first 64 primes, as 32-bit words, here in decimal). -/
def roundK : List Nat :=
  [ 1116352408, 1899447441, 3049323471, 3921009573, 961987163,
    1508970993, 2453635748, 2870763221, 3624381080, 310598401,
    607225278, 1426881987, 1925078388, 2162078206, 2614888103,
    3248222580, 3835390401, 4022224774, 264347078, 604807628,
    770255983, 1249150122, 1555081692, 1996064986, 2554220882,
    2821834349, 2952996808, 3210313671, 3336571891, 3584528711,
    113926993, 338241895, 666307205, 773529912, 1294757372,
    1396182291, 1695183700, 1986661051, 2177026350, 2456956037,
    2730485921, 2820302411, 3259730800, 3345764771, 3516065817,
    3600352804, 4094571909, 275423344, 430227734, 506948616,
    659060556, 883997877, 958139571, 1322822218, 1537002063,
    1747873779, 1955562222, 2024104815, 2227730452, 2361852424,
    2428436474, 2756734187, 3204031479, 3329325298 ]

/-- The initial hash state of SHA-256 (the fractional parts of the square
roots of the first 8 primes, as 32-bit words, here in decimal). -/
def initH : List Nat :=
  [ 1779033703, 3144134277, 1013904242, 2773480762,
    1359893119, 2600822924, 528734635, 1541459225 ]

/-- Big-endian byte rendering of a value in `k` bytes. -/
def beBytes (k v : Nat) : List Nat :=
  (List.range k).map (fun i => (v >>> (8 * (k - 1 - i))) % 256)

/-- SHA-256 padding: a 0x80 byte, zeros up to 56 mod 64, then the bit
length in 8 big-endian bytes. -/
def padMsg (m : List Nat) : List Nat :=
  let l := m.length
  let z := (120 - ((l + 1) % 64)) % 64
  m ++ [128] ++ List.replicate z 0 ++ beBytes 8 (8 * l)

/-- Group bytes into big-endian 32-bit words. -/
def toWords : List Nat → List Nat
  | b0 :: b1 :: b2 :: b3 :: rest =>
    (((b0 * 256 + b1) * 256 + b2) * 256 + b3) :: toWords rest
  | _ => []

/-- Extend 16 message words to the 64-entry schedule. -/
def extendW (w16 : List Nat) : List Nat :=
  (List.range 48).foldl
    (fun w _ =>
      let i := w.length
      w ++ [(sigE (w.getD (i - 2) 0) + w.getD (i - 7) 0
             + sigA (w.getD (i - 15) 0) + w.getD (i - 16) 0) % w32])
    w16

/-- One compression round step on the eight-word working state. -/
def roundStep (w : List Nat) (st : List Nat) (i : Nat) : List Nat :=
  match st with
  | [a, b, c, d, e, f, g, hh] =>
    let t1 := (hh + sumE e + chf e f g + roundK.getD i 0 + w.getD i 0) % w32
    let t2 := (sumA a + majf a b c) % w32
    [(t1 + t2) % w32, a, b, c, (d + t1) % w32, e, f, g]
  | other => other

/-- Compress one 16-word block into the hash state. -/
def compressBlock (h : List Nat) (w16 : List Nat) : List Nat :=
  let w := extendW w16
  let fin := (List.range 64).foldl (roundStep w) h
  List.zipWith (fun x y => (x + y) % w32) h fin

/-- The digest words of a byte message. -/
def sha256words (m : List Nat) : List Nat :=
  let ws := toWords (padMsg m)
  let nblocks := ws.length / 16
  (List.range nblocks).foldl
    (fun h i => compressBlock h ((ws.drop (16 * i)).take 16)) initH

/-- The 32 digest bytes of a byte message. -/
def sha256bytes (m : List Nat) : List Nat :=
  (sha256words m).flatMap (beBytes 4)

end Sha256

namespace ZteApi

/-- UTF-8 encoding of one character (`str.encode("utf-8")`, per char). -/
def charUtf8 (c : Char) : List Nat :=
  let n := c.toNat
  if n < 128 then [n]
  else if n < 2048 then
    [192 ||| (n >>> 6), 128 ||| (n &&& 63)]
  else if n < 65536 then
    [224 ||| (n >>> 12), 128 ||| ((n >>> 6) &&& 63), 128 ||| (n &&& 63)]
  else
    [240 ||| (n >>> 18), 128 ||| ((n >>> 12) &&& 63), 128 ||| ((n >>> 6) &&& 63), 128 ||| (n &&& 63)]

/-- Model of `text.encode("utf-8")` as a byte list. -/
def strBytes (s : String) : List Nat := s.data.flatMap charUtf8

/-- A lowercase hex digit, as `hexdigest()` renders nibbles. -/
def hexLowerDigit (n : Nat) : Char := "0123456789abcdef".data.getD n '0'

/-- Model of `hexdigest()`: the digest bytes as lowercase hex. -/
def hexdigest (bytes : List Nat) : String :=
  String.mk (bytes.flatMap (fun b => [hexLowerDigit (b / 16), hexLowerDigit (b % 16)]))

/-- Model of `str.upper()` (the hex alphabet is ASCII, where Python and Lean agree). -/
def strUpper (s : String) : String := String.mk (s.data.map Char.toUpper)

/-- Embedding of `ZteRouterApi.sha256` (zte_api.py lines 48-51):
`hashlib.sha256(text.encode("utf-8")).hexdigest().upper()`. -/
def sha256 (text : String) : String :=
  strUpper (hexdigest (Sha256.sha256bytes (strBytes text)))

/-- An uppercase hex digit. -/
def hexUpperDigit (n : Nat) : Char := "0123456789ABCDEF".data.getD n '0'

/-- Modelled from the spec: "SHA-256 … rendered as uppercase hexadecimal",
written directly with the uppercase alphabet, to be compared with the
source-shaped `sha256` (lowercase hexdigest then upper-cased). -/
def sha256hexUpper (s : String) : String :=
  String.mk ((Sha256.sha256bytes (strBytes s)).flatMap
    (fun b => [hexUpperDigit (b / 16), hexUpperDigit (b % 16)]))

/-!
The client's session machinery.  The HTTP transport is an oracle: a list of
`Outcome`s consumed one per ubus POST, in order (an exhausted list behaves
as a connection failure).  The first element of a parsed response body is
modelled as a JSON object carrying an optional `error` object and the
`result` value, exactly the shapes `call_ubus` inspects (a non-object first
element is outside the model).  Python exceptions are `Except PErr`; the
requests the client issues, plus the one diagnostic log the claims care
about, are recorded as events. -/

/-- A Python exception, as far as the embedded code can raise one. -/
inductive PErr where
  | indexError : PErr
  | typeError : PErr
  | keyError : PErr
  | attrError : PErr
  | runtimeError (msg : String) : PErr
deriving Repr, DecidableEq

/-- The mutable client state: `self._session_id` (Python `None` or the
token value, hence a `J`) and `self._logged_in`. -/
structure St where
  session_id : J
  logged_in : Bool
deriving Repr

/-- The `error` object of a response element; `code`/`msg` are whatever
`err.get("code")` / `err.get("message")` return (`J.null` when missing). -/
structure ErrObj where
  code : J
  msg : J
deriving Repr

/-- One HTTP outcome for a ubus POST, as `call_ubus` distinguishes them:
a transport-level failure (connection error, timeout, non-2xx status — the
first `try` block), an undecodable body or missing first element (the
second `try` block), or a parsed first element with its optional `error`
object and its `result` value (`J.null` when the key is missing). -/
inductive Outcome where
  | transErr : Outcome
  | badJson : Outcome
  | resp (error : Option ErrObj) (result : J) : Outcome
deriving Repr

/-- The dictionary `call_ubus` returns: keys `success` and `data`
(`data` is `J.null` on failure, mirroring `"data": None`). -/
structure CallRes where
  success : Bool
  data : J
deriving Repr

/-- The `call` argument of `call_ubus`: service, method, and the value
under `"params"` (`J.null` models an absent key, so that
`call.get("params", ...) or ...` normalizes both alike). -/
structure RpcCall where
  service : String
  method : String
  params : J
deriving Repr

/-- Observable actions of the client: the `init_session` GET, each ubus
POST (with the session id, service, method and params placed in the
request), and the `ubus error` diagnostic log line with the error's code
and message. -/
inductive Ev where
  | getRoot : Ev
  | post (sid : J) (service : String) (method : String) (params : J) : Ev
  | logUbusError (code : J) (msg : J) : Ev
deriving Repr

/-- Result of running a piece of client code: its value (or the exception
it raised), the client state after it, the unconsumed transport oracle,
and the events it emitted. -/
structure Out (α : Type) where
  val : α
  st : St
  tr : List Outcome
  evs : List Ev
deriving Repr

/-- The 32-character all-zero placeholder session id (`"0" * 32`). -/
def zeroSid : J := J.str (String.mk (List.replicate 32 '0'))

/-- The session id placed in a request: an explicitly passed `None` (the
default) falls back to `self._session_id`, and a falsy value falls back to
the all-zero placeholder (`session_id or "0" * 32`). -/
def reqSid (st : St) (sidArg : J) : J :=
  let sid := match sidArg with
    | J.null => st.session_id
    | v => v
  if jTruthy sid then sid else zeroSid

/-- Model of `call.get("params", ...) or ...`: a missing or falsy params value
becomes the empty object. -/
def normParams (p : J) : J := if jTruthy p then p else J.obj []

/-- Consume the next transport outcome; an exhausted oracle behaves as a
connection failure. -/
def takeOutcome : List Outcome → Outcome × List Outcome
  | [] => (Outcome.transErr, [])
  | o :: r => (o, r)

/-- Interpretation of one outcome by the non-recovery part of `call_ubus`
(zte_api.py lines 242-292 with the re-login branch excluded): transport and
decode failures give a failed result; an `error` object gives a failed
result after the diagnostic log; otherwise `result = res0.get("result") or
[]` is subscripted — a two-element-or-longer array headed by `0` succeeds
with `result[1]`, a one-element array headed by `0` raises `IndexError`,
truthy non-array values raise on subscripting (except strings, whose first
character compares unequal to `0`). -/
def interpPlain : Outcome → Except PErr CallRes × List Ev
  | .transErr => (.ok ⟨false, J.null⟩, [])
  | .badJson => (.ok ⟨false, J.null⟩, [])
  | .resp (some e) _ => (.ok ⟨false, J.null⟩, [.logUbusError e.code e.msg])
  | .resp none result =>
    let r := if jTruthy result then result else J.arr []
    match r with
    | J.arr (r0 :: rest) =>
      if jIsNum r0 0 then
        match rest with
        | r1 :: _ => (.ok ⟨true, r1⟩, [])
        | [] => (.error .indexError, [])
      else (.ok ⟨false, J.null⟩, [])
    | J.arr [] => (.ok ⟨false, J.null⟩, [])
    | J.str _ => (.ok ⟨false, J.null⟩, [])
    | J.num _ => (.error .typeError, [])
    | J.obj _ => (.error .keyError, [])
    | J.null => (.ok ⟨false, J.null⟩, [])

/-- Embedding of `call_ubus` with `retry_on_access_denied=False` (no recovery branch):
build and POST the request, then interpret the outcome.  The state is
never touched on this path. -/
def call_ubus_base (tr : List Outcome) (st : St) (c : RpcCall) (sidArg : J) :
    Out (Except PErr CallRes) :=
  let ev := Ev.post (reqSid st sidArg) c.service c.method (normParams c.params)
  let p := takeOutcome tr
  let pr := interpPlain p.1
  ⟨pr.1, st, p.2, ev :: pr.2⟩

/-- Embedding of `init_session` (zte_api.py lines 153-167): re-create the cookie
session and GET the base URL; the response is only logged and every
exception is caught, and cookies are outside the model, so the client
state is unchanged and only the GET event is observable. -/
def init_session (st : St) : St × List Ev := (st, [Ev.getRoot])

/-- Embedding of `login` (zte_api.py lines 169-211): fetch the salt with the all-zero
placeholder session, hash the password, send `web_login`, and store the
returned `ubus_rpc_session`.  Missing salt or missing session id raise
`RuntimeError`; a truthy non-object `data` raises on `.get`
(`AttributeError`), a truthy non-string salt raises on string
concatenation (`TypeError`). -/
def login (tr : List Outcome) (st : St) (password : String) :
    Out (Except PErr Unit) :=
  let salt_req : RpcCall := ⟨"zwrt_web", "web_login_info", J.obj []⟩
  let o1 := call_ubus_base tr st salt_req zeroSid
  match o1.val with
  | .error e => ⟨.error e, o1.st, o1.tr, o1.evs⟩
  | .ok salt_res =>
    let data := if jTruthy salt_res.data then salt_res.data else J.obj []
    match data with
    | J.obj kvs =>
      let salt := dictGet kvs "zte_web_sault"
      if jTruthy salt then
        match salt with
        | J.str saltS =>
          let pw_hash := sha256 password
          let final := sha256 (pw_hash ++ saltS)
          let login_req : RpcCall := ⟨"zwrt_web", "web_login", J.obj [("password", J.str final)]⟩
          let o2 := call_ubus_base o1.tr o1.st login_req zeroSid
          match o2.val with
          | .error e => ⟨.error e, o2.st, o2.tr, o1.evs ++ o2.evs⟩
          | .ok login_res =>
            let d := if jTruthy login_res.data then login_res.data else J.obj []
            match d with
            | J.obj kvs2 =>
              let sid := dictGet kvs2 "ubus_rpc_session"
              if jTruthy sid then ⟨.ok (), ⟨sid, true⟩, o2.tr, o1.evs ++ o2.evs⟩
              else ⟨.error (.runtimeError "Login failed"), o2.st, o2.tr, o1.evs ++ o2.evs⟩
            | _ => ⟨.error .attrError, o2.st, o2.tr, o1.evs ++ o2.evs⟩
        | _ => ⟨.error .typeError, o1.st, o1.tr, o1.evs⟩
      else ⟨.error (.runtimeError "Could not retrieve login salt"), o1.st, o1.tr, o1.evs⟩
    | _ => ⟨.error .attrError, o1.st, o1.tr, o1.evs⟩

/-- Embedding of `call_ubus` (zte_api.py lines 216-292).  On an `error` object with
code `-32002` while recovery is allowed, the session is cleared
(`_logged_in = False`, `_session_id = None`), `init_session` and `login`
run inside a catch-all `try` that converts their exception into a failed
result, and on login success the same call is retried exactly once via the
non-recovery path with the freshly stored session id.  Every other outcome
is interpreted as in `call_ubus_base`. -/
def call_ubus (tr : List Outcome) (st : St) (c : RpcCall) (sidArg : J)
    (retry_on_access_denied : Bool) (password : String) :
    Out (Except PErr CallRes) :=
  let ev := Ev.post (reqSid st sidArg) c.service c.method (normParams c.params)
  let p := takeOutcome tr
  match p.1 with
  | .resp (some e) _ =>
    let logs := [Ev.logUbusError e.code e.msg]
    if jIsNum e.code (-32002) && retry_on_access_denied then
      let st1 : St := ⟨J.null, false⟩
      let ini := init_session st1
      let lg := login p.2 ini.1 password
      match lg.val with
      | .error _ => ⟨.ok ⟨false, J.null⟩, lg.st, lg.tr, (ev :: logs) ++ ini.2 ++ lg.evs⟩
      | .ok _ =>
        let r2 := call_ubus_base lg.tr lg.st c lg.st.session_id
        ⟨r2.val, r2.st, r2.tr, (ev :: logs) ++ ini.2 ++ lg.evs ++ r2.evs⟩
    else ⟨.ok ⟨false, J.null⟩, st, p.2, ev :: logs⟩
  | o =>
    let pr := interpPlain o
    ⟨pr.1, st, p.2, ev :: pr.2⟩

/-- The dictionary `update_all` returns. -/
structure Snapshot where
  netinfo : List (String × J)
  thermal : J
  device : J
  wan : J
  bands_summary : String
  total_bw_mhz : ℚ
deriving Repr

/-- Embedding of `update_all` (zte_api.py lines 297-328): log in when not logged in
(letting a login failure propagate), issue the four telemetry calls with
recovery enabled, normalize the network-info payload with `... or ` the
empty dict (a truthy non-object payload raises `AttributeError` at the
first `.get` inside `_compute_bands_and_bw`), and assemble the snapshot
with the derived band summary and total bandwidth. -/
def update_all (tr : List Outcome) (st : St) (password : String) :
    Out (Except PErr Snapshot) :=
  let s0 : Out (Except PErr Unit) :=
    if st.logged_in then ⟨.ok (), st, tr, []⟩
    else
      let ini := init_session st
      let lg := login tr ini.1 password
      ⟨lg.val, lg.st, lg.tr, ini.2 ++ lg.evs⟩
  match s0.val with
  | .error e => ⟨.error e, s0.st, s0.tr, s0.evs⟩
  | .ok _ =>
    let r1 := call_ubus s0.tr s0.st ⟨"zte_nwinfo_api", "nwinfo_get_netinfo", J.null⟩ J.null true password
    match r1.val with
    | .error e => ⟨.error e, r1.st, r1.tr, s0.evs ++ r1.evs⟩
    | .ok netinfo_res =>
      let r2 := call_ubus r1.tr r1.st ⟨"zwrt_bsp.thermal", "get_cpu_temp", J.null⟩ J.null true password
      match r2.val with
      | .error e => ⟨.error e, r2.st, r2.tr, s0.evs ++ r1.evs ++ r2.evs⟩
      | .ok temp_res =>
        let r3 := call_ubus r2.tr r2.st ⟨"zwrt_mc.device.manager", "get_device_info", J.null⟩ J.null true password
        match r3.val with
        | .error e => ⟨.error e, r3.st, r3.tr, s0.evs ++ r1.evs ++ r2.evs ++ r3.evs⟩
        | .ok dev_res =>
          let r4 := call_ubus r3.tr r3.st ⟨"zwrt_router.api", "router_get_status", J.null⟩ J.null true password
          match r4.val with
          | .error e => ⟨.error e, r4.st, r4.tr, s0.evs ++ r1.evs ++ r2.evs ++ r3.evs ++ r4.evs⟩
          | .ok wan_res =>
            let evAll := s0.evs ++ r1.evs ++ r2.evs ++ r3.evs ++ r4.evs
            let nEx : Except PErr (List (String × J)) :=
              match netinfo_res.data with
              | J.obj kvs => .ok kvs
              | v => if jTruthy v then .error .attrError else .ok []
            match nEx with
            | .error e => ⟨.error e, r4.st, r4.tr, evAll⟩
            | .ok kvs =>
              let bb := compute_bands_and_bw kvs
              ⟨.ok ⟨kvs, temp_res.data, dev_res.data, wan_res.data, bb.1, bb.2⟩, r4.st, r4.tr, evAll⟩

/-- A "plain" outcome: one whose interpretation neither raises nor (even
with recovery allowed) triggers the re-login branch — everything except an
error object with code `-32002` and except the result shapes whose
subscripting raises. -/
def plainB : Outcome → Bool
  | .transErr => true
  | .badJson => true
  | .resp (some e) _ => !jIsNum e.code (-32002)
  | .resp none result =>
    let r := if jTruthy result then result else J.arr []
    match r with
    | J.arr (r0 :: rest) => !jIsNum r0 0 || !rest.isEmpty
    | J.arr [] => true
    | J.str _ => true
    | J.num _ => false
    | J.obj _ => false
    | J.null => true

/-- A "benign" outcome: one whose interpretation never raises (recovery on
`-32002` is allowed).  Every response in the spec's taxonomy — transport
failure, undecodable body, error object of any code, or a `[status, data]`
result — is benign. -/
def benignB : Outcome → Bool
  | .transErr => true
  | .badJson => true
  | .resp (some _) _ => true
  | .resp none result =>
    let r := if jTruthy result then result else J.arr []
    match r with
    | J.arr (r0 :: rest) => !jIsNum r0 0 || !rest.isEmpty
    | J.arr [] => true
    | J.str _ => true
    | J.num _ => false
    | J.obj _ => false
    | J.null => true

/-- The result a plain (and any non-`-32002`-error benign) outcome
produces. -/
def plainRes : Outcome → CallRes
  | .transErr => ⟨false, J.null⟩
  | .badJson => ⟨false, J.null⟩
  | .resp (some _) _ => ⟨false, J.null⟩
  | .resp none result =>
    let r := if jTruthy result then result else J.arr []
    match r with
    | J.arr (r0 :: r1 :: _) => if jIsNum r0 0 then ⟨true, r1⟩ else ⟨false, J.null⟩
    | _ => ⟨false, J.null⟩

/-- A successful `[0, data]` response outcome. -/
def okResp (d : J) : Outcome := Outcome.resp none (J.arr [J.num 0, d])

/-- An error-object response outcome. -/
def errResp (code : ℚ) (msg : String) : Outcome :=
  Outcome.resp (some ⟨J.num code, J.str msg⟩) J.null

/-- A successful salt response, as `web_login_info` returns it. -/
def saltResp (salt : String) : Outcome :=
  okResp (J.obj [("zte_web_sault", J.str salt)])

/-- A successful login response carrying the new session token. -/
def tokenResp (tok : String) : Outcome :=
  okResp (J.obj [("ubus_rpc_session", J.str tok)])

/-- The outcome a trace presents next (an exhausted oracle acts as a
connection failure). -/
def headO (tr : List Outcome) : Outcome := (takeOutcome tr).1

/-- Transport-level failures in the claims' enumeration: connection error,
timeout or non-2xx status (`transErr`), malformed body or missing first
element (`badJson`). -/
def isTransportFailure : Outcome → Bool
  | .transErr => true
  | .badJson => true
  | _ => false

/-- Is an outcome's payload safe to hand to `_compute_bands_and_bw` as the
network-info section (an object, or falsy and hence replaced by the empty
dict)? -/
def resObjOk (o : Outcome) : Bool :=
  match (plainRes o).data with
  | J.obj _ => true
  | v => !jTruthy v

/-- The network-info dictionary `update_all` derives from the first
sub-call's outcome (`netinfo_res.get("data") or ` the empty dict). -/
def netinfoOf (o : Outcome) : List (String × J) :=
  match (plainRes o).data with
  | J.obj kvs => kvs
  | _ => []

end ZteApi

namespace Sensor

open ZteApi

/-- Embedding of `_as_number` (sensor.py lines 62-80): normalize a router value to a
number or `none`.  `None` maps to `none`; numbers pass through; strings are
stripped, with `""` and `"-"` mapping to `none` and everything else going
through `float(...)` with `ValueError` caught; all other shapes map to
`none`. -/
def as_number (v : J) : Option ℚ :=
  match v with
  | .null => none
  | .num q => some q
  | .str s =>
    let t := trimWs s.data
    if t == [] || t == ['-'] then none
    else pyFloatStr (String.mk t)
  | _ => none

end Sensor

/-!
Theorems.  Each claim of the specification review is settled by exactly
one theorem below, named in its doc comment.
-/

namespace ZteApi

theorem lookupBand_eq_find (t : List BandRow) (ch : Int) :
    lookupBand t ch = (t.find? (rowHas ch)).map (fun r => r.1) := by
  induction t with
  | nil => rfl
  | cons r rest ih =>
    by_cases h : rowHas ch r
    · simp [lookupBand, List.find?, h]
    · simp only [lookupBand, List.find?, h, if_neg]
      simp [h, ih]

/-- C9: the band resolvers are pure functions of their input (they are
Lean functions of a channel, built over static tables): absent input gives
absent output; a present channel resolves to the band of the *first*
(lowest-listed) table row whose inclusive bounds contain it, captured by
`List.find?` over the source-ordered table; and the output is absent
exactly when no row of the respective table contains the channel. -/
theorem band_resolvers_first_match :
    (convert_lte_earfcn_to_band none = none) ∧
    (convert_nr_arfcn_to_band none = none) ∧
    (∀ ch : Int, convert_lte_earfcn_to_band (some ch)
      = (lte_bands.find? (rowHas ch)).map (fun r => r.1)) ∧
    (∀ ch : Int, convert_nr_arfcn_to_band (some ch)
      = (nr_bands.find? (rowHas ch)).map (fun r => r.1)) ∧
    (∀ ch : Int, convert_lte_earfcn_to_band (some ch) = none
      ↔ ∀ r ∈ lte_bands, rowHas ch r = false) ∧
    (∀ ch : Int, convert_nr_arfcn_to_band (some ch) = none
      ↔ ∀ r ∈ nr_bands, rowHas ch r = false) := by
  refine ⟨rfl, rfl, ?_, ?_, ?_, ?_⟩
  · intro ch; exact lookupBand_eq_find lte_bands ch
  · intro ch; exact lookupBand_eq_find nr_bands ch
  · intro ch
    rw [convert_lte_earfcn_to_band, lookupBand_eq_find]
    simp [List.find?_eq_none]
  · intro ch
    rw [convert_nr_arfcn_to_band, lookupBand_eq_find]
    simp [List.find?_eq_none]

/-- C5: the three reference vectors for the band-summary derivation: LTE
channel 1300 with bandwidth 20 and no NR fields gives ("B3", 20); adding
NR channel 650000 with bandwidth 100 gives ("B3 + N78", 120); all fields
absent gives ("-", 0), as does all fields zero. -/
theorem summarize_reference_vectors :
    compute_bands_and_bw
      [("lte_action_channel", J.num 1300), ("lte_bandwidth", J.num 20)] = ("B3", 20) ∧
    compute_bands_and_bw
      [("lte_action_channel", J.num 1300), ("lte_bandwidth", J.num 20),
       ("nr5g_action_channel", J.num 650000), ("nr5g_bandwidth", J.num 100)] = ("B3 + N78", 120) ∧
    compute_bands_and_bw [] = ("-", 0) ∧
    compute_bands_and_bw
      [("lte_action_channel", J.num 0), ("lte_bandwidth", J.num 0),
       ("nr5g_action_channel", J.num 0), ("nr5g_bandwidth", J.num 0)] = ("-", 0) := by
  refine ⟨?_, ?_, ?_, ?_⟩
  · simp [compute_bands_and_bw, dictGet, pyIntJ, pyFloatJ, ratTrunc,
      convert_lte_earfcn_to_band, lookupBand, lte_bands, rowHas]
    rfl
  · simp [compute_bands_and_bw, dictGet, pyIntJ, pyFloatJ, ratTrunc,
      convert_lte_earfcn_to_band, convert_nr_arfcn_to_band, lookupBand,
      lte_bands, nr_bands, rowHas]
    norm_num
    rfl
  · simp [compute_bands_and_bw, dictGet, pyIntJ, pyFloatJ]
  · simp [compute_bands_and_bw, dictGet, pyIntJ, pyFloatJ, ratTrunc]

/-- C6 counterexample: with LTE channel 700 — which coerces to the valid
number 700 — and positive bandwidth 20, no band label is appended (EARFCN
700 lies in no table row, so the summary is "-"), although the claim's
wording promises that the technology's band label is appended whenever the
channel coerces to a valid number and the bandwidth is positive.  The
bandwidth is still added to the total. -/
theorem summarize_label_counterexample :
    pyIntJ (dictGet [("lte_action_channel", J.num 700), ("lte_bandwidth", J.num 20)]
      "lte_action_channel") = some 700 ∧
    pyFloatJ (dictGet [("lte_action_channel", J.num 700), ("lte_bandwidth", J.num 20)]
      "lte_bandwidth") = some 20 ∧
    (0 : ℚ) < 20 ∧
    compute_bands_and_bw [("lte_action_channel", J.num 700), ("lte_bandwidth", J.num 20)]
      = ("-", 20) := by
  refine ⟨?_, ?_, by norm_num, ?_⟩
  · simp [dictGet, pyIntJ, ratTrunc]
  · simp [dictGet, pyFloatJ]
  · simp [compute_bands_and_bw, dictGet, pyIntJ, pyFloatJ, ratTrunc,
      convert_lte_earfcn_to_band, lookupBand, lte_bands, rowHas]

set_option maxHeartbeats 1000000 in
/-- C6 (amended): for each technology, when the channel coerces to a valid
number and the bandwidth coerces to a positive number, the bandwidth is
added to the running total, and the technology's band label is appended to
the ordered label list *when the resolver finds a band for the channel*
(when it does not, the bandwidth still counts but no label is appended);
labels join with " + ", an empty list renders as "-".  Stated as: the
implementation agrees with `summarizeSpec`, the derivation written the way
the amended spec text reads. -/
theorem summarize_matches_spec (netinfo : List (String × J)) :
    compute_bands_and_bw netinfo = summarizeSpec netinfo := by
  simp only [compute_bands_and_bw, summarizeSpec]
  repeat' split
  all_goals simp_all

/-- C10: numeric extraction is total and never raises — exceptions are
modelled as `Except`/`Option` outcomes, and none escape: `_as_number` maps
"-", "", `None`, and non-numeric strings to absent and "12.5" to 12.5;
numbers pass through and structured values map to absent; the
channel/bandwidth coercions used by `_compute_bands_and_bw` likewise
absorb unparsable or missing fields, so the derivation is defined (and
degrades to ("-", 0)) even on garbage payloads. -/
theorem numeric_extraction_total :
    Sensor.as_number (J.str "-") = none ∧
    Sensor.as_number (J.str "") = none ∧
    Sensor.as_number J.null = none ∧
    Sensor.as_number (J.str "abc") = none ∧
    Sensor.as_number (J.str "1.2.3") = none ∧
    Sensor.as_number (J.str "12.5") = some (25 / 2) ∧
    (∀ q : ℚ, Sensor.as_number (J.num q) = some q) ∧
    (∀ kvs, Sensor.as_number (J.obj kvs) = none) ∧
    (∀ xs, Sensor.as_number (J.arr xs) = none) ∧
    pyIntJ J.null = none ∧
    pyFloatJ J.null = none ∧
    pyIntJ (J.str "x2") = none ∧
    pyFloatJ (J.str "x2") = none ∧
    compute_bands_and_bw
      [("lte_action_channel", J.obj [("weird", J.null)]), ("lte_bandwidth", J.str "abc"),
       ("nr5g_action_channel", J.str ""), ("nr5g_bandwidth", J.arr [J.num 1])]
      = ("-", 0) := by
  refine ⟨by rfl, by rfl, by rfl, by rfl, by rfl, ?_, fun q => rfl, fun kvs => rfl,
    fun xs => rfl, by rfl, by rfl, by rfl, by rfl, ?_⟩
  · simp [Sensor.as_number, trimWs, isWs, pyFloatStr, splitDot, digitsVal,
      digitsValD, isDigit]
    norm_num
  · simp [compute_bands_and_bw, dictGet, pyIntJ, pyFloatJ, pyIntStr, pyFloatStr,
      trimWs, isWs, splitDot, digitsVal, isDigit]

end ZteApi

namespace ZteApi

theorem interpPlain_ok (o : Outcome) (h : plainB o = true) :
    (interpPlain o).1 = Except.ok (plainRes o) := by
  cases o with
  | transErr => rfl
  | badJson => rfl
  | resp err result =>
    cases err with
    | some e => rfl
    | none =>
      simp only [plainB] at h
      simp only [interpPlain, plainRes]
      repeat' split
      all_goals simp_all

theorem call_ubus_plain (o : Outcome) (rest : List Outcome) (st : St) (c : RpcCall)
    (sidArg : J) (retry : Bool) (pw : String) (h : plainB o = true) :
    call_ubus (o :: rest) st c sidArg retry pw
      = ⟨(interpPlain o).1, st, rest,
         Ev.post (reqSid st sidArg) c.service c.method (normParams c.params)
           :: (interpPlain o).2⟩ := by
  cases o with
  | transErr => rfl
  | badJson => rfl
  | resp err result =>
    cases err with
    | none => rfl
    | some e =>
      have hc : jIsNum e.code (-32002) = false := by
        simpa [plainB] using h
      simp [call_ubus, takeOutcome, interpPlain, hc]

theorem call_ubus_plain_ok (o : Outcome) (rest : List Outcome) (st : St) (c : RpcCall)
    (sidArg : J) (retry : Bool) (pw : String) (h : plainB o = true) :
    call_ubus (o :: rest) st c sidArg retry pw
      = ⟨Except.ok (plainRes o), st, rest,
         Ev.post (reqSid st sidArg) c.service c.method (normParams c.params)
           :: (interpPlain o).2⟩ := by
  rw [call_ubus_plain o rest st c sidArg retry pw h, interpPlain_ok o h]

theorem plainRes_not_success (o : Outcome) (h : (plainRes o).success = false) :
    (plainRes o).data = J.null := by
  cases o with
  | transErr => rfl
  | badJson => rfl
  | resp err result =>
    cases err with
    | some e => rfl
    | none =>
      simp only [plainRes] at h ⊢
      repeat' split
      all_goals simp_all

theorem benign_interp_ok (o : Outcome) (h : benignB o = true) :
    ∃ r, (interpPlain o).1 = Except.ok r := by
  cases o with
  | transErr => exact ⟨_, rfl⟩
  | badJson => exact ⟨_, rfl⟩
  | resp err result =>
    cases err with
    | some e => exact ⟨_, rfl⟩
    | none =>
      simp only [benignB] at h
      simp only [interpPlain]
      repeat' split
      all_goals simp_all

theorem takeOutcome_tail_subset (tr : List Outcome) : (takeOutcome tr).2 ⊆ tr := by
  cases tr with
  | nil => simp [takeOutcome]
  | cons o r => intro x hx; exact List.mem_cons_of_mem o hx

theorem login_tr_cases (tr : List Outcome) (st : St) (pw : String) :
    (login tr st pw).tr = (takeOutcome tr).2 ∨
    (login tr st pw).tr = (takeOutcome (takeOutcome tr).2).2 := by
  unfold login
  dsimp only [call_ubus_base]
  repeat' split
  all_goals simp

theorem login_tr_subset (tr : List Outcome) (st : St) (pw : String) :
    (login tr st pw).tr ⊆ tr := by
  rcases login_tr_cases tr st pw with h | h <;> rw [h]
  · exact takeOutcome_tail_subset tr
  · exact (takeOutcome_tail_subset _).trans (takeOutcome_tail_subset tr)

theorem benign_headO (tr : List Outcome) (h : ∀ o ∈ tr, benignB o = true) :
    benignB (headO tr) = true := by
  cases tr with
  | nil => rfl
  | cons o r => exact h o (List.mem_cons_self o r)

theorem hexDigit_toUpper : ∀ n : Nat, n < 16 →
    Char.toUpper (hexLowerDigit n) = hexUpperDigit n := by decide

theorem beBytes_lt (k v : Nat) : ∀ b ∈ Sha256.beBytes k v, b < 256 := by
  intro b hb
  simp only [Sha256.beBytes, List.mem_map] at hb
  rcases hb with ⟨i, _, rfl⟩
  exact Nat.mod_lt _ (by norm_num)

theorem sha256bytes_lt (m : List Nat) : ∀ b ∈ Sha256.sha256bytes m, b < 256 := by
  intro b hb
  simp only [Sha256.sha256bytes, List.mem_flatMap] at hb
  rcases hb with ⟨w, _, hw⟩
  exact beBytes_lt 4 w b hw

theorem hexmap (l : List Nat) (h : ∀ b ∈ l, b < 256) :
    (l.flatMap (fun b => [hexLowerDigit (b / 16), hexLowerDigit (b % 16)])).map Char.toUpper
      = l.flatMap (fun b => [hexUpperDigit (b / 16), hexUpperDigit (b % 16)]) := by
  induction l with
  | nil => rfl
  | cons b rest ih =>
    have hb : b < 256 := h b (List.mem_cons_self b rest)
    have hdiv : b / 16 < 16 := by omega
    have hmod : b % 16 < 16 := Nat.mod_lt _ (by norm_num)
    simp only [List.flatMap_cons, List.map_append]
    rw [ih (fun x hx => h x (List.mem_cons_of_mem b hx))]
    simp [hexDigit_toUpper _ hdiv, hexDigit_toUpper _ hmod]

theorem sha256_eq_sha256hexUpper (s : String) : sha256 s = sha256hexUpper s := by
  unfold sha256 sha256hexUpper strUpper hexdigest
  congr 1
  exact hexmap _ (sha256bytes_lt _)

/-- C1: on a `-32002` error with recovery enabled, the client performs
exactly one re-login — session re-initialization (`getRoot`) followed by
the two-call login protocol — and retries the same call exactly once with
the freshly stored token, with recovery disallowed on the retry (the retry
is interpreted by the plain non-recovery path, so a second `-32002` on it
yields the ordinary failed result and no further login events, as the
exact event-list equality of the first conjunct and the second conjunct
show); and when the re-login itself fails, the call returns the ordinary
failed result instead of propagating the exception (third conjunct). -/
theorem call_ubus_single_relogin_retry (c : RpcCall) (pw salt tok m m2 : String) (st : St)
    (retryOut : Outcome) (rest rest2 : List Outcome)
    (hsalt : salt ≠ "") (htok : tok ≠ "") :
    (call_ubus (errResp (-32002) m :: saltResp salt :: tokenResp tok :: retryOut :: rest)
        st c J.null true pw
      = ⟨(interpPlain retryOut).1, ⟨J.str tok, true⟩, rest,
         Ev.post (reqSid st J.null) c.service c.method (normParams c.params)
           :: Ev.logUbusError (J.num (-32002)) (J.str m)
           :: Ev.getRoot
           :: Ev.post zeroSid "zwrt_web" "web_login_info" (J.obj [])
           :: Ev.post zeroSid "zwrt_web" "web_login"
                (J.obj [("password", J.str (sha256 (sha256 pw ++ salt)))])
           :: Ev.post (J.str tok) c.service c.method (normParams c.params)
           :: (interpPlain retryOut).2⟩) ∧
    ((call_ubus (errResp (-32002) m :: saltResp salt :: tokenResp tok
          :: errResp (-32002) m2 :: rest) st c J.null true pw).val
        = Except.ok ⟨false, J.null⟩) ∧
    (call_ubus (errResp (-32002) m :: Outcome.transErr :: rest2) st c J.null true pw
      = ⟨Except.ok ⟨false, J.null⟩, ⟨J.null, false⟩, rest2,
         [Ev.post (reqSid st J.null) c.service c.method (normParams c.params),
          Ev.logUbusError (J.num (-32002)) (J.str m),
          Ev.getRoot,
          Ev.post zeroSid "zwrt_web" "web_login_info" (J.obj [])]⟩) := by
  refine ⟨?_, ?_, ?_⟩ <;>
    simp [call_ubus, call_ubus_base, login, init_session, takeOutcome, interpPlain,
      errResp, saltResp, tokenResp, okResp, reqSid, normParams, dictGet, jTruthy,
      jIsNum, zeroSid, List.find?, hsalt, htok]

/-- Witness for C1: the concrete second-`-32002` run where the retry also
reports access denied — the call returns the ordinary failed result. -/
theorem call_ubus_single_relogin_retry_witness :
    "SALT" ≠ "" ∧ "NEWTOK" ≠ "" ∧
    (call_ubus [errResp (-32002) "denied", saltResp "SALT", tokenResp "NEWTOK",
        errResp (-32002) "again"] ⟨J.str "OLD", true⟩ ⟨"svc", "meth", J.null⟩
        J.null true "pw").val
      = Except.ok ⟨false, J.null⟩ :=
  ⟨by decide, by decide,
   (call_ubus_single_relogin_retry ⟨"svc", "meth", J.null⟩ "pw" "SALT" "NEWTOK"
      "denied" "again" ⟨J.str "OLD", true⟩ (okResp J.null) [] []
      (by decide) (by decide)).2.1⟩

end ZteApi

namespace ZteApi

/-- C2: `update_all` merges best-effort.  From an authenticated state, for
every combination of plain sub-call outcomes (each failing or succeeding
independently), the snapshot is returned — no exception — with each
section holding exactly its own sub-call's payload (`J.null`, Python
`None`, when that sub-call failed), so one sub-call's failure neither
aborts the snapshot nor affects any other section; a section is `J.null`
exactly when its sub-call failed (given that genuine successes carry
truthy payloads, as a `[0, data]` success with falsy data is
indistinguishable from `None` in Python); the same holds when a fresh
login precedes the four calls; and when authentication cannot be
established the call raises — the login failure propagates. -/
theorem update_all_best_effort_merge :
    (∀ (pw : String) (st : St) (o1 o2 o3 o4 : Outcome),
      st.logged_in = true →
      plainB o1 = true → plainB o2 = true → plainB o3 = true → plainB o4 = true →
      resObjOk o1 = true →
      (update_all [o1, o2, o3, o4] st pw).val
         = Except.ok ⟨netinfoOf o1, (plainRes o2).data, (plainRes o3).data,
             (plainRes o4).data, (compute_bands_and_bw (netinfoOf o1)).1,
             (compute_bands_and_bw (netinfoOf o1)).2⟩
       ∧ (update_all [o1, o2, o3, o4] st pw).st = st) ∧
    (∀ o : Outcome, ((plainRes o).success = true → jTruthy (plainRes o).data = true) →
      ((plainRes o).data = J.null ↔ (plainRes o).success = false)) ∧
    (∀ o : Outcome, resObjOk o = true →
      ((plainRes o).success = true → jTruthy (plainRes o).data = true) →
      (netinfoOf o = [] ↔ (plainRes o).success = false)) ∧
    (∀ (pw : String) (o1 o2 o3 o4 : Outcome),
      plainB o1 = true → plainB o2 = true → plainB o3 = true → plainB o4 = true →
      resObjOk o1 = true →
      (update_all (saltResp "SALT" :: tokenResp "TOKEN" :: [o1, o2, o3, o4])
          ⟨J.null, false⟩ pw).val
        = Except.ok ⟨netinfoOf o1, (plainRes o2).data, (plainRes o3).data,
            (plainRes o4).data, (compute_bands_and_bw (netinfoOf o1)).1,
            (compute_bands_and_bw (netinfoOf o1)).2⟩) ∧
    (∀ (pw : String) (rest : List Outcome),
      (update_all (Outcome.transErr :: rest) ⟨J.null, false⟩ pw).val
        = Except.error (PErr.runtimeError "Could not retrieve login salt")) := by
  refine ⟨?_, ?_, ?_, ?_, ?_⟩
  · intro pw st o1 o2 o3 o4 hlog h1 h2 h3 h4 hobj
    have e1 := call_ubus_plain_ok o1 [o2, o3, o4] st
      ⟨"zte_nwinfo_api", "nwinfo_get_netinfo", J.null⟩ J.null true pw h1
    have e2 := call_ubus_plain_ok o2 [o3, o4] st
      ⟨"zwrt_bsp.thermal", "get_cpu_temp", J.null⟩ J.null true pw h2
    have e3 := call_ubus_plain_ok o3 [o4] st
      ⟨"zwrt_mc.device.manager", "get_device_info", J.null⟩ J.null true pw h3
    have e4 := call_ubus_plain_ok o4 [] st
      ⟨"zwrt_router.api", "router_get_status", J.null⟩ J.null true pw h4
    simp only [update_all, hlog, if_true, e1, e2, e3, e4]
    rcases hd : (plainRes o1).data with _ | q | s | kvs | xs <;>
      simp_all [resObjOk, netinfoOf, jTruthy]
  · intro o h
    constructor
    · intro hd
      cases hs : (plainRes o).success
      · rfl
      · have := h hs
        rw [hd] at this
        simp [jTruthy] at this
    · intro hs
      exact plainRes_not_success o hs
  · intro o hobj h
    constructor
    · intro hn
      cases hs : (plainRes o).success
      · rfl
      · have ht := h hs
        rcases hd : (plainRes o).data with _ | q | s | kvs | xs <;>
          simp_all [resObjOk, netinfoOf, jTruthy]
    · intro hs
      have hd := plainRes_not_success o hs
      simp [netinfoOf, hd]
  · intro pw o1 o2 o3 o4 h1 h2 h3 h4 hobj
    have e1 := call_ubus_plain_ok o1 [o2, o3, o4] ⟨J.str "TOKEN", true⟩
      ⟨"zte_nwinfo_api", "nwinfo_get_netinfo", J.null⟩ J.null true pw h1
    have e2 := call_ubus_plain_ok o2 [o3, o4] ⟨J.str "TOKEN", true⟩
      ⟨"zwrt_bsp.thermal", "get_cpu_temp", J.null⟩ J.null true pw h2
    have e3 := call_ubus_plain_ok o3 [o4] ⟨J.str "TOKEN", true⟩
      ⟨"zwrt_mc.device.manager", "get_device_info", J.null⟩ J.null true pw h3
    have e4 := call_ubus_plain_ok o4 [] ⟨J.str "TOKEN", true⟩
      ⟨"zwrt_router.api", "router_get_status", J.null⟩ J.null true pw h4
    simp [update_all, login, call_ubus_base, init_session, takeOutcome, interpPlain,
      saltResp, tokenResp, okResp, reqSid, normParams, dictGet, jTruthy, jIsNum, zeroSid,
      List.find?, e1, e2, e3, e4]
    rcases hd : (plainRes o1).data with _ | q | s | kvs | xs <;>
      simp_all [resObjOk, netinfoOf, jTruthy]
  · intro pw rest
    simp [update_all, login, call_ubus_base, init_session, takeOutcome, interpPlain,
      dictGet, jTruthy, List.find?]

/-- Witness for C2: the spec's own example — only the thermal sub-call
fails (a transport error); the snapshot still carries network, device and
WAN data, with thermal `J.null` (absent). -/
theorem update_all_best_effort_merge_witness :
    (⟨J.str "TOK", true⟩ : St).logged_in = true ∧
    plainB (okResp (J.obj [("x", J.num 1)])) = true ∧
    plainB Outcome.transErr = true ∧
    plainB (okResp (J.str "dev")) = true ∧
    plainB (okResp (J.str "wan")) = true ∧
    resObjOk (okResp (J.obj [("x", J.num 1)])) = true ∧
    (update_all [okResp (J.obj [("x", J.num 1)]), Outcome.transErr,
        okResp (J.str "dev"), okResp (J.str "wan")] ⟨J.str "TOK", true⟩ "pw").val
      = Except.ok ⟨netinfoOf (okResp (J.obj [("x", J.num 1)])),
          (plainRes Outcome.transErr).data, (plainRes (okResp (J.str "dev"))).data,
          (plainRes (okResp (J.str "wan"))).data,
          (compute_bands_and_bw (netinfoOf (okResp (J.obj [("x", J.num 1)])))).1,
          (compute_bands_and_bw (netinfoOf (okResp (J.obj [("x", J.num 1)])))).2⟩ :=
  ⟨rfl, by decide, by decide, by decide, by decide, by decide,
   (update_all_best_effort_merge.1 "pw" ⟨J.str "TOK", true⟩
      (okResp (J.obj [("x", J.num 1)])) Outcome.transErr
      (okResp (J.str "dev")) (okResp (J.str "wan"))
      rfl (by decide) (by decide) (by decide) (by decide) (by decide)).1⟩

end ZteApi

namespace ZteApi

/-- C3 counterexample: a response with error code `-32601` yields exactly
the same result value as a plain transport failure — the result dictionary
is always the failure dictionary with success false and `None` payload, so
it does *not* carry the error's numeric code or message, and the caller
cannot distinguish router error codes from the result (the code and
message go only to the diagnostic log). -/
theorem other_error_code_result_indistinguishable :
    (call_ubus [errResp (-32601) "no method"] ⟨J.str "TOK", true⟩
        ⟨"svc", "meth", J.null⟩ J.null true "pw").val = Except.ok ⟨false, J.null⟩ ∧
    (call_ubus [errResp (-32601) "no method"] ⟨J.str "TOK", true⟩
        ⟨"svc", "meth", J.null⟩ J.null true "pw").val
      = (call_ubus [Outcome.transErr] ⟨J.str "TOK", true⟩
          ⟨"svc", "meth", J.null⟩ J.null true "pw").val := by
  norm_num [call_ubus, takeOutcome, interpPlain, errResp, jIsNum]

/-- C3 (amended): a well-formed response whose error code is not `-32002`
returns the failed result dictionary without invoking any login or retry
logic — the state is unchanged, no further trace is consumed, and the only
events are the request itself and the diagnostic log line, which is where
the error's numeric code and message surface (they are not attached to the
returned result). -/
theorem other_error_code_failed_result (code msg result : J) (st : St) (c : RpcCall)
    (sidArg : J) (retry : Bool) (pw : String) (rest : List Outcome)
    (h : jIsNum code (-32002) = false) :
    call_ubus (Outcome.resp (some ⟨code, msg⟩) result :: rest) st c sidArg retry pw
      = ⟨Except.ok ⟨false, J.null⟩, st, rest,
         [Ev.post (reqSid st sidArg) c.service c.method (normParams c.params),
          Ev.logUbusError code msg]⟩ := by
  simp [call_ubus, takeOutcome, h]

/-- Witness for the amended C3 at error code `-32601`. -/
theorem other_error_code_failed_result_witness :
    jIsNum (J.num (-32601)) (-32002) = false ∧
    call_ubus (Outcome.resp (some ⟨J.num (-32601), J.str "m"⟩) J.null :: [])
        ⟨J.str "TOK", true⟩ ⟨"svc", "meth", J.null⟩ J.null true "pw"
      = ⟨Except.ok ⟨false, J.null⟩, ⟨J.str "TOK", true⟩, [],
         [Ev.post (reqSid ⟨J.str "TOK", true⟩ J.null) "svc" "meth" (normParams J.null),
          Ev.logUbusError (J.num (-32601)) (J.str "m")]⟩ :=
  ⟨by decide,
   other_error_code_failed_result (J.num (-32601)) (J.str "m") J.null
     ⟨J.str "TOK", true⟩ ⟨"svc", "meth", J.null⟩ J.null true "pw" [] (by decide)⟩

/-- C7 counterexample: a `-32002` access-denied response on a call with
recovery disabled leaves the session fully intact — the stored token is
still present and the authenticated flag still true — contradicting the
claim that the session is invalidated on every `-32002` regardless of
whether recovery is enabled. -/
theorem access_denied_no_invalidate_without_retry :
    (call_ubus [errResp (-32002) "Access denied"] ⟨J.str "SESSIONTOKEN", true⟩
        ⟨"zte_nwinfo_api", "nwinfo_get_netinfo", J.null⟩ J.null false "pw").st
      = ⟨J.str "SESSIONTOKEN", true⟩ ∧
    (call_ubus [errResp (-32002) "Access denied"] ⟨J.str "SESSIONTOKEN", true⟩
        ⟨"zte_nwinfo_api", "nwinfo_get_netinfo", J.null⟩ J.null false "pw").val
      = Except.ok ⟨false, J.null⟩ := by
  constructor <;> simp [call_ubus, takeOutcome, errResp]

/-- C7 (amended): a `-32002` response invalidates the session only when
recovery is enabled for that call.  With recovery disabled, the failed
result is returned with the session state unmodified (first conjunct).
With recovery enabled the session is cleared before re-login: when the
re-login fails the client is left with no token and authenticated false
(second conjunct); when it succeeds the cleared session has been replaced
by the freshly obtained token (third conjunct), and the re-login's salt
request goes out under the all-zero placeholder session id, showing it was
issued from the cleared session (fourth conjunct). -/
theorem access_denied_invalidation_amended (m : String) (result : J) (st : St)
    (c : RpcCall) (sidArg : J) (pw : String) (rest rest2 : List Outcome) :
    (call_ubus (Outcome.resp (some ⟨J.num (-32002), J.str m⟩) result :: rest)
        st c sidArg false pw
      = ⟨Except.ok ⟨false, J.null⟩, st, rest,
         [Ev.post (reqSid st sidArg) c.service c.method (normParams c.params),
          Ev.logUbusError (J.num (-32002)) (J.str m)]⟩) ∧
    ((call_ubus (errResp (-32002) m :: Outcome.transErr :: rest2) st c sidArg true pw).st
      = ⟨J.null, false⟩) ∧
    ((call_ubus [errResp (-32002) m, saltResp "SALT", tokenResp "NEWTOKEN", Outcome.transErr]
        st c sidArg true pw).st = ⟨J.str "NEWTOKEN", true⟩) ∧
    ((call_ubus [errResp (-32002) m, saltResp "SALT", tokenResp "NEWTOKEN", Outcome.transErr]
        st c sidArg true pw).evs.getD 3 Ev.getRoot
      = Ev.post zeroSid "zwrt_web" "web_login_info" (J.obj [])) := by
  refine ⟨?_, ?_, ?_, ?_⟩
  · simp [call_ubus, takeOutcome]
  · simp [call_ubus, call_ubus_base, login, init_session, takeOutcome, interpPlain,
      errResp, reqSid, normParams, dictGet, jTruthy, jIsNum, zeroSid, List.find?]
  · simp [call_ubus, call_ubus_base, login, init_session, takeOutcome, interpPlain,
      errResp, saltResp, tokenResp, okResp, reqSid, normParams, dictGet, jTruthy,
      jIsNum, zeroSid, List.find?]
  · simp [call_ubus, call_ubus_base, login, init_session, takeOutcome, interpPlain,
      errResp, saltResp, tokenResp, okResp, reqSid, normParams, dictGet, jTruthy,
      jIsNum, zeroSid, List.find?]

/-- C8: `call_ubus` never raises on the spec's response taxonomy.  First
conjunct: for every trace of benign outcomes (transport failures, decode
failures, error objects of any code, and well-formed `[status, data]`
results), with or without recovery, the call returns a result value — no
exception.  Second and third conjuncts: each transport-level failure
(connection error / timeout / non-2xx, undecodable body or missing first
element, and an exhausted connection) yields exactly the failure
dictionary: success false, payload absent. -/
theorem call_ubus_never_raises :
    (∀ (tr : List Outcome) (st : St) (c : RpcCall) (sidArg : J) (retry : Bool) (pw : String),
      (∀ o ∈ tr, benignB o = true) →
      ∃ r, (call_ubus tr st c sidArg retry pw).val = Except.ok r) ∧
    (∀ (o : Outcome) (rest : List Outcome) (st : St) (c : RpcCall) (sidArg : J)
        (retry : Bool) (pw : String), isTransportFailure o = true →
      (call_ubus (o :: rest) st c sidArg retry pw).val = Except.ok ⟨false, J.null⟩) ∧
    (∀ (st : St) (c : RpcCall) (sidArg : J) (retry : Bool) (pw : String),
      (call_ubus [] st c sidArg retry pw).val = Except.ok ⟨false, J.null⟩) := by
  refine ⟨?_, ?_, ?_⟩
  · intro tr st c sidArg retry pw hb
    cases tr with
    | nil => exact ⟨_, rfl⟩
    | cons o rest =>
      have hrest : ∀ x ∈ rest, benignB x = true :=
        fun x hx => hb x (List.mem_cons_of_mem o hx)
      cases o with
      | transErr => exact ⟨_, rfl⟩
      | badJson => exact ⟨_, rfl⟩
      | resp err result =>
        cases err with
        | none =>
          have hbo := hb _ (List.mem_cons_self _ rest)
          have := benign_interp_ok (Outcome.resp none result) hbo
          simpa [call_ubus, takeOutcome] using this
        | some e =>
          by_cases hc : (jIsNum e.code (-32002) && retry) = true
          · rcases hv : (login rest ⟨J.null, false⟩ pw).val with lerr | lok
            · exact ⟨⟨false, J.null⟩,
                by simp [call_ubus, takeOutcome, init_session, hc, hv]⟩
            · have hsub : (login rest ⟨J.null, false⟩ pw).tr ⊆ rest :=
                login_tr_subset rest ⟨J.null, false⟩ pw
              have hbh : benignB (headO (login rest ⟨J.null, false⟩ pw).tr) = true :=
                benign_headO _ (fun x hx => hrest x (hsub hx))
              rcases benign_interp_ok _ hbh with ⟨r, hr⟩
              refine ⟨r, ?_⟩
              simp [call_ubus, takeOutcome, init_session, hc, hv, call_ubus_base]
              exact hr
          · exact ⟨⟨false, J.null⟩, by simp [call_ubus, takeOutcome, hc]⟩
  · intro o rest st c sidArg retry pw ho
    cases o <;> simp_all [call_ubus, takeOutcome, interpPlain, isTransportFailure]
  · intro st c sidArg retry pw
    rfl

/-- Witness for C8: a benign trace (an access-denied error followed by a
transport failure during re-login) still produces a result value, and a
connection failure produces the failure dictionary. -/
theorem call_ubus_never_raises_witness :
    (∀ o ∈ [errResp (-32002) "denied", Outcome.transErr], benignB o = true) ∧
    (∃ r, (call_ubus [errResp (-32002) "denied", Outcome.transErr]
        ⟨J.str "T", true⟩ ⟨"svc", "meth", J.null⟩ J.null true "pw").val
      = Except.ok r) ∧
    isTransportFailure Outcome.badJson = true ∧
    (call_ubus [Outcome.badJson] ⟨J.str "T", true⟩ ⟨"svc", "meth", J.null⟩
        J.null true "pw").val = Except.ok ⟨false, J.null⟩ :=
  ⟨by decide,
   call_ubus_never_raises.1 [errResp (-32002) "denied", Outcome.transErr]
     ⟨J.str "T", true⟩ ⟨"svc", "meth", J.null⟩ J.null true "pw" (by decide),
   by decide,
   call_ubus_never_raises.2.1 Outcome.badJson [] ⟨J.str "T", true⟩
     ⟨"svc", "meth", J.null⟩ J.null true "pw" (by decide)⟩

end ZteApi

namespace ZteApi

set_option maxRecDepth 100000 in
/-- C4: the login hash.  For every password and salt, the hash the client
places in the `web_login` request equals the uppercase-hexadecimal SHA-256
of (the uppercase-hexadecimal SHA-256 of the password, concatenated with
the salt) — first conjunct, with the source-shaped `sha256` (lowercase
hexdigest then upper-cased) proven equal to the direct uppercase-hex
rendering in the second conjunct; and for password "secret" and salt
"ABCDEF" it equals the fixed reference vector, with the inner digest also
checked (third and fourth conjuncts). -/
theorem login_hash_two_stage :
    (∀ (pw salt : String) (st : St), salt ≠ "" →
      (login [saltResp salt] st pw).evs.getD 1 Ev.getRoot
        = Ev.post zeroSid "zwrt_web" "web_login"
            (J.obj [("password", J.str (sha256hexUpper (sha256hexUpper pw ++ salt)))])) ∧
    (∀ s : String, sha256 s = sha256hexUpper s) ∧
    sha256 "secret" = "2BB80D537B1DA3E38BD30361AA855686BDE0EACD7162FEF6A25FE97BF527A25B" ∧
    sha256 (sha256 "secret" ++ "ABCDEF")
      = "D82D6A33533518422522438D1974122B7FD0D53A54BBF46FB4D8D68D0FEC7C14" := by
  refine ⟨?_, sha256_eq_sha256hexUpper, ?_, ?_⟩
  · intro pw salt st hsalt
    simp [login, call_ubus_base, takeOutcome, interpPlain, saltResp, okResp, reqSid,
      normParams, dictGet, jTruthy, jIsNum, zeroSid, List.find?, hsalt,
      sha256_eq_sha256hexUpper]
  · decide
  · decide

/-- Witness for C4 at password "secret" and salt "ABCDEF". -/
theorem login_hash_two_stage_witness :
    "ABCDEF" ≠ "" ∧
    (login [saltResp "ABCDEF"] ⟨J.null, false⟩ "secret").evs.getD 1 Ev.getRoot
      = Ev.post zeroSid "zwrt_web" "web_login"
          (J.obj [("password",
            J.str (sha256hexUpper (sha256hexUpper "secret" ++ "ABCDEF")))]) :=
  ⟨by decide, login_hash_two_stage.1 "secret" "ABCDEF" ⟨J.null, false⟩ (by decide)⟩

end ZteApi
